import Mathlib

/-
Shallow embedding of the comgate_gateway payment client.

The repository holds two variants of the same module:
  src/index.js          -> namespace IndexJs below
  src/unnamed/part_000  -> namespace Part000 below
Both variants share the value model, the configuration record and the
request record defined at top level.
-/

/-- Decidable equality on Except values, used to evaluate concrete runs of
the fallible index.js constructor. -/
instance {ε α : Type} [DecidableEq ε] [DecidableEq α] :
    DecidableEq (Except ε α) := fun a b =>
  match a, b with
  | .ok x, .ok y =>
    if h : x = y then .isTrue (by rw [h]) else .isFalse (by simp [h])
  | .error x, .error y =>
    if h : x = y then .isTrue (by rw [h]) else .isFalse (by simp [h])
  | .ok _, .error _ => .isFalse (by simp)
  | .error _, .ok _ => .isFalse (by simp)

/-- Model of the JavaScript scalar values that flow through the module:
strings, numbers (the module only computes with integral numbers), booleans,
null and undefined. -/
inductive JSValue where
| str : String → JSValue
| num : Int → JSValue
| bool : Bool → JSValue
| null : JSValue
| undefined : JSValue
deriving DecidableEq

/-- JavaScript truthiness of a scalar value: empty string, 0, false, null
and undefined are falsy, everything else is truthy. -/
def truthy : JSValue → Bool
| .str s => s ≠ ""
| .num n => n ≠ 0
| .bool b => b
| .null => false
| .undefined => false

/-- String conversion of a scalar value, as produced by `String(v)`, by a
template literal, and by `.toString()` on a defined value: strings unchanged,
integral numbers in decimal, booleans as true/false, null and undefined as
the words null and undefined. -/
def JSValue.toString : JSValue → String
| .str s => s
| .num n => ToString.toString n
| .bool b => if b then "true" else "false"
| .null => "null"
| .undefined => "undefined"

/-- The JavaScript `a || b` operator on scalar values: the left operand when
it is truthy, otherwise the right operand. -/
def jsOr (a b : JSValue) : JSValue := if truthy a then a else b

/-- Message stored by the built-in `Error` constructor: `new Error(m)` leaves
message empty when m is undefined and otherwise stores the string conversion
of m. -/
def errorSuper (message : JSValue) : String :=
  match message with
  | .undefined => ""
  | v => v.toString

/-- Model of an error object as observed by a caller: the own properties the
two error classes can set. Both constructors in the source set only `name`
(and `message` through super); neither ever assigns `this.status` or
`this.code`, so those fields stay `none` on every constructed object. -/
structure JSErrorObject where
  name : String
  message : String
  status : Option JSValue := none
  code : Option JSValue := none
deriving DecidableEq

/-- `new APIError(message, status)` from both source files: the constructor
body runs `super(message)` and sets `this.name`; the status parameter is not
stored anywhere on the object. -/
def APIError.make (message : JSValue) (status : JSValue) : JSErrorObject :=
  { name := "APIError", message := errorSuper message }

/-- `new PaymentError(message, status)` from src/unnamed/part_000: the
constructor body runs `super(message)` and sets `this.name`; the second
parameter is not stored anywhere on the object. -/
def PaymentError.make (message : JSValue) (status : JSValue) : JSErrorObject :=
  { name := "PaymentError", message := errorSuper message }

/- Association-list model of plain JavaScript objects with string keys.
Insertion order is part of the model, matching object key order. -/

/-- Assignment `o[k] = v` on a plain object: updates the value in place when
the key exists, otherwise appends the key at the end. -/
def setKey {α : Type} (l : List (String × α)) (k : String) (v : α) :
    List (String × α) :=
  if l.any (fun p => p.1 == k) then
    l.map (fun p => if p.1 == k then (k, v) else p)
  else l ++ [(k, v)]

/-- `delete o[k]` on a plain object. -/
def objDelete {α : Type} (l : List (String × α)) (k : String) :
    List (String × α) :=
  l.filter (fun p => p.1 != k)

/-- Whether a plain object has the own property k. -/
def hasKey {α : Type} (l : List (String × α)) (k : String) : Bool :=
  l.any (fun p => p.1 == k)

/-- Raw lookup of the own property k. -/
def lookupKey {α : Type} (l : List (String × α)) (k : String) : Option α :=
  (l.find? (fun p => p.1 == k)).map Prod.snd

/-- Property read `o.k` on a string-valued object: the stored string, or
undefined when the property is absent. -/
def objGetStr (l : List (String × String)) (k : String) : JSValue :=
  match lookupKey l k with
  | some v => .str v
  | none => .undefined

/-- Property read `o.k` on an object holding arbitrary scalar values. -/
def objGetV (l : List (String × JSValue)) (k : String) : JSValue :=
  match lookupKey l k with
  | some v => v
  | none => .undefined

/-- Spread merge `{...a, ...b}`: entries of b assigned over a in order,
overriding values of existing keys and appending new keys. -/
def objSpread (a b : List (String × JSValue)) : List (String × JSValue) :=
  b.foldl (fun acc p => setKey acc p.1 p.2) a

/- URL-encoded body parsing, modelling `new URLSearchParams(payload)` on the
ASCII bodies the gateway produces. -/

/-- Value of a hexadecimal digit character. -/
def hexDigitVal (c : Char) : Option Nat :=
  if '0' ≤ c ∧ c ≤ '9' then some (c.toNat - '0'.toNat)
  else if 'a' ≤ c ∧ c ≤ 'f' then some (c.toNat - 'a'.toNat + 10)
  else if 'A' ≤ c ∧ c ≤ 'F' then some (c.toNat - 'A'.toNat + 10)
  else none

/-- Percent-decoding of a urlencoded component: `+` becomes a space and a
valid `%hh` escape becomes the character with that code (single-byte, which
covers the ASCII data the module handles); anything else passes through. -/
def percentDecode : List Char → List Char
| [] => []
| '+' :: rest => ' ' :: percentDecode rest
| '%' :: a :: b :: rest =>
  match hexDigitVal a, hexDigitVal b with
  | some x, some y => Char.ofNat (16 * x + y) :: percentDecode rest
  | _, _ => '%' :: percentDecode (a :: b :: rest)
| c :: rest => c :: percentDecode rest

/-- Split a list of characters at the first `=`, when present. -/
def splitEq : List Char → Option (List Char × List Char)
| [] => none
| '=' :: rest => some ([], rest)
| c :: rest =>
  match splitEq rest with
  | some (pre, post) => some (c :: pre, post)
  | none => none

/-- One `name=value` segment of a urlencoded body: split at the first `=`
(a segment without `=` is a bare name with empty value), then decode both
sides. -/
def parseSegment (seg : String) : String × String :=
  match splitEq seg.toList with
  | some (name, value) =>
    (String.mk (percentDecode name), String.mk (percentDecode value))
  | none => (String.mk (percentDecode seg.toList), "")

/-- Split a urlencoded body on ampersands; cur accumulates the current
segment in reverse. -/
def splitAmp : List Char → List Char → List String
| [], cur => [String.mk cur.reverse]
| '&' :: rest, cur => String.mk cur.reverse :: splitAmp rest []
| c :: rest, cur => splitAmp rest (c :: cur)

/-- Strip the optional single leading question mark URLSearchParams
accepts. -/
def stripLeadingQuestion : List Char → List Char
| '?' :: rest => rest
| l => l

/-- `new URLSearchParams(payload)` as the ordered list of its entries: an
optional leading `?` is removed, the rest splits on `&`, empty segments are
skipped, and each segment parses to a name/value pair. Duplicate names are
kept, in order, as URLSearchParams does. -/
def urlSearchParams (payload : String) : List (String × String) :=
  ((splitAmp (stripLeadingQuestion payload.toList) []).filter
    (fun seg => seg ≠ "")).map parseSegment

/-- The loop `urlParams.forEach((value, key) => out[key] = value)` from
_makeAPICall: folds the entries into a plain object, later duplicates
overwriting earlier values. -/
def toObject (pairs : List (String × String)) : List (String × String) :=
  pairs.foldl (fun acc p => setKey acc p.1 p.2) []

/-- `haystack.includes(needle)` on lists of characters. -/
def charsContain : List Char → List Char → Bool
| _, [] => true
| [], _ :: _ => false
| c :: rest, needle =>
  (needle.isPrefixOf (c :: rest)) || charsContain rest needle

/-- `s.includes(sub)` on strings, as used on the content-type header. -/
def jsIncludes (s sub : String) : Bool := charsContain s.toList sub.toList

/- Configuration resolution. -/

/-- Constructor options object. Fields not supplied by the caller read as
undefined, like absent properties of the options object. -/
structure JSOptions where
  secret : JSValue := .undefined
  bankPublicKey : JSValue := .undefined
  calbackUrl : JSValue := .undefined
  useTest : JSValue := .undefined
  merchantId : JSValue := .undefined
  apiVersion : JSValue := .undefined
  currency : JSValue := .undefined
  language : JSValue := .undefined
  country : JSValue := .undefined
  gateUrl : JSValue := .undefined
deriving DecidableEq

/-- The environment variables the module reads through process.env. A set
variable is a string value; an unset one reads as undefined. -/
structure Env where
  MERCHANT_SECRET : JSValue := .undefined
  BANK_PUBLIC_KEY : JSValue := .undefined
  CALLBACK_URL : JSValue := .undefined
  USE_TEST : JSValue := .undefined
  MERCHANT_ID : JSValue := .undefined
  API_VERSION : JSValue := .undefined
  GATEWAY_URL : JSValue := .undefined
deriving DecidableEq

/-- The configuration record built by the constructor and stored on the
instance. -/
structure Configuration where
  secret : JSValue
  bankPublicKey : JSValue
  calbackUrl : JSValue
  useTest : JSValue
  merchantId : JSValue
  apiVersion : JSValue
  currency : JSValue
  language : JSValue
  country : JSValue
  gateUrl : String
deriving DecidableEq

/-- Property access `v.prop` on a scalar value: on undefined and null it
throws a TypeError; a string, number or boolean has none of the properties
index.js reads off the apiVersion option (currency, language, country), so
the access yields undefined. -/
def getProp : JSValue → Except String JSValue
| .undefined => .error "TypeError: Cannot read properties of undefined"
| .null => .error "TypeError: Cannot read properties of null"
| _ => .ok .undefined

/-- A request handed to _makeAPICall: the relative path and the field
mapping. -/
structure Request where
  path : String
  data : List (String × JSValue)
deriving DecidableEq

namespace Part000

/-- Configuration resolver: the constructor of ComgatePaymentModule in
src/unnamed/part_000. The logger setup (which only selects a logging
function) is omitted: no claim concerns it. -/
def ctor (config : JSOptions) (env : Env) : Configuration :=
  let apiVersion := jsOr config.apiVersion (jsOr env.API_VERSION (.str "1.0"))
  { secret := jsOr config.secret env.MERCHANT_SECRET
    bankPublicKey := jsOr config.bankPublicKey env.BANK_PUBLIC_KEY
    calbackUrl := jsOr config.calbackUrl env.CALLBACK_URL
    useTest := jsOr config.useTest (jsOr env.USE_TEST (.bool false))
    merchantId := jsOr config.merchantId env.MERCHANT_ID
    apiVersion := apiVersion
    currency := jsOr config.currency (.str "CZK")
    language := jsOr config.language (.str "cs")
    country := jsOr config.country (.str "CZ")
    gateUrl :=
      (jsOr config.gateUrl
        (jsOr env.GATEWAY_URL (.str "https://payments.comgate.cz"))).toString
        ++ "/v" ++ apiVersion.toString }

/-- The per-field transformation `(data[key] || "").toString()` applied by
_makeAPICall in src/unnamed/part_000 when it appends a caller field to the
form body. -/
def stringifyField (v : JSValue) : String := (jsOr v (.str "")).toString

/-- The form body built by _makeAPICall in src/unnamed/part_000 when data is
given: first `formData.append("type", "json")`, then every caller entry with
its value passed through stringifyField. -/
def buildFormData (data : List (String × JSValue)) : List (String × String) :=
  ("type", "json") :: data.map (fun p => (p.1, stringifyField p.2))

end Part000

/-- Parsed JSON object as far as the dispatcher inspects it: the `error`
property (undefined when absent) and the remaining fields, which the
dispatcher passes through untouched. -/
structure JObj where
  error : JSValue := .undefined
  fields : List (String × String) := []
deriving DecidableEq

/-- `JSON.stringify(json.error)` for the scalar error values the dispatcher
can meet; only truthy values reach it in the source (string escaping is not
exercised by any claim and the gateway error codes carry no quotes). -/
def jsonStringifyVal : JSValue → String
| .str s => "\"" ++ s ++ "\""
| .num n => ToString.toString n
| .bool b => if b then "true" else "false"
| .null => "null"
| .undefined => "undefined"

/-- An exception value carried by a promise rejection: either one of the two
error classes of the module, or a raw runtime error (TypeError, JSON parse
error) that no code of the module constructed. -/
inductive JSException where
| errObj : JSErrorObject → JSException
| raw : String → JSException
deriving DecidableEq

/-- Outcome of one dispatched call as the caller observes it. -/
inductive JSOutcome where
| resolvedJson : JObj → JSOutcome
| resolvedFields : List (String × String) → JSOutcome
| resolvedText : String → JSOutcome
| rejected : JSException → JSOutcome
deriving DecidableEq

/-- node-fetch `res.ok`: status at least 200 and below 300. -/
def resOk (status : Nat) : Bool := decide (200 ≤ status ∧ status < 300)

/-- An HTTP response as the dispatcher sees it: status, the content-type
header (`headers.get` yields null, modelled none, when the header is
absent), and the raw body text. -/
structure Response where
  status : Nat
  contentType : Option String
  body : String

namespace Part000

/-- Model of the response continuation of _makeAPICall in
src/unnamed/part_000, parametric in the JSON.parse function so that theorems
about branches that never parse JSON hold for every parser.

Control flow follows the source exactly:
the content-type header is read and `contentType.includes` is evaluated
first, so a response without a Content-Type header throws a TypeError
(rejecting the promise with the raw error) before the `res.ok` check runs;
then non-ok responses reject with `new APIError(body, status)`; then the
body is interpreted by content-type.

The try/catch of the source wraps only the synchronous construction of the
promise chains. The body parsers run later, inside promise continuations,
and a failure there rejects the promise without ever reaching the catch
block, so a JSON parse failure surfaces as the raw parse error (`.raw`),
not as an APIError. Body reads are modelled synchronously on the stored
body text. -/
def handleResponse (jsonParse : String → Except String JObj)
    (res : Response) : JSOutcome :=
  match res.contentType with
  | none =>
    .rejected (.raw "TypeError: Cannot read properties of null (reading includes)")
  | some contentType =>
    let isJSON := jsIncludes contentType "application/json"
    if !(resOk res.status) then
      .rejected (.errObj (APIError.make (.str res.body) (.num (res.status : Int))))
    else if isJSON then
      match jsonParse res.body with
      | .error e => .rejected (.raw e)
      | .ok json =>
        if truthy json.error then
          .rejected (.errObj (APIError.make (.str (jsonStringifyVal json.error))
            (.num (res.status : Int))))
        else .resolvedJson json
    else if jsIncludes contentType "form-urlencoded"
        || jsIncludes contentType "text/html" then
      let out := toObject (urlSearchParams res.body)
      if objGetStr out "code" ≠ .str "0" then
        .rejected (.errObj (PaymentError.make (objGetStr out "message")
          (objGetStr out "code")))
      else .resolvedFields (objDelete (objDelete out "code") "message")
    else .resolvedText res.body

/-- methods() from src/unnamed/part_000. -/
def methods (cfg : Configuration) : Request :=
  { path := "methods"
    data := [("merchant", cfg.merchantId), ("secret", cfg.secret),
             ("lang", cfg.language), ("curr", cfg.currency),
             ("country", cfg.country)] }

/-- status(transactionId) from src/unnamed/part_000: posts to the relative
path status. -/
def status (cfg : Configuration) (transactionId : JSValue) : Request :=
  { path := "status"
    data := [("merchant", cfg.merchantId), ("transId", transactionId),
             ("secret", cfg.secret)] }

/-- refund(transactionId, params) from src/unnamed/part_000. Returns the
request handed to _makeAPICall together with the params object as the caller
sees it after the call: the source reads `const { amount } = params` and
then runs `delete params.amount` on the very object the caller passed in,
before spreading the remaining entries over the base fields. `useTest` is
never undefined (the resolver defaults it to false), so its `.toString()`
never throws. -/
def refund (cfg : Configuration) (transactionId : JSValue)
    (params : List (String × JSValue)) :
    Request × List (String × JSValue) :=
  let amount := objGetV params "amount"
  let paramsAfter := objDelete params "amount"
  let base : List (String × JSValue) :=
    [("merchant", cfg.merchantId), ("transId", transactionId),
     ("secret", cfg.secret),
     ("test", .str cfg.useTest.toString),
     ("curr", cfg.currency),
     ("amount", .str (jsOr amount (.str "")).toString)]
  ({ path := "refund", data := objSpread base paramsAfter }, paramsAfter)

end Part000

namespace IndexJs

/-- Configuration resolver: the constructor of ComgatePaymentModule in
src/index.js. It reads currency, language and country off
`config.apiVersion` (property access on the raw option, which throws a
TypeError when the apiVersion option is absent), and joins gateUrl without
any built-in base default. Property reads are hoisted before the record
literal; they are side-effect free except for the throw, which in the
source happens while the object literal is evaluated, so observable
behaviour is identical. The logger setup and the constant payloadTemplate
record are omitted: no claim concerns them. -/
def ctor (config : JSOptions) (env : Env) : Except String Configuration := do
  let currencyProp ← getProp config.apiVersion
  let languageProp ← getProp config.apiVersion
  let countryProp ← getProp config.apiVersion
  let apiVersion := jsOr config.apiVersion (jsOr env.API_VERSION (.str "1.0"))
  .ok
    { secret := jsOr config.secret env.MERCHANT_SECRET
      bankPublicKey := jsOr config.bankPublicKey env.BANK_PUBLIC_KEY
      calbackUrl := jsOr config.calbackUrl env.CALLBACK_URL
      useTest := jsOr config.useTest (jsOr env.USE_TEST (.bool false))
      merchantId := jsOr config.merchantId env.MERCHANT_ID
      apiVersion := apiVersion
      currency := jsOr currencyProp (.str "CZK")
      language := jsOr languageProp (.str "cs")
      country := jsOr countryProp (.str "CZ")
      gateUrl := (jsOr config.gateUrl env.GATEWAY_URL).toString
        ++ "/v" ++ apiVersion.toString }

/-- methods() from src/index.js. -/
def methods (cfg : Configuration) : Request :=
  { path := "methods"
    data := [("merchant", cfg.merchantId), ("secret", cfg.secret),
             ("lang", cfg.language), ("curr", cfg.currency),
             ("country", cfg.country)] }

/-- status(transactionId) from src/index.js: the source posts to the
relative path methods, not status. -/
def status (cfg : Configuration) (transactionId : JSValue) : Request :=
  { path := "methods"
    data := [("merchant", cfg.merchantId), ("transId", transactionId),
             ("secret", cfg.secret)] }

end IndexJs

/-- A JSON.parse model for the concrete evaluations below. Every concrete
body it is applied to in this file (urlencoded text such as
code=1&message=failed, or the literal not-json) is rejected by JSON.parse,
which this function mirrors by failing on every input; the dispatcher
theorems themselves are parametric in the parse function and do not depend
on it. -/
def failingJsonParse (s : String) : Except String JObj :=
  .error ("SyntaxError: " ++ s)

/-- Precedence rule as the specification words it: the explicit option value
when truthy, else the environment value when truthy, else the default.
Stated on its own to compare the source resolvers against it. -/
def specPrecedence (opt envVal dflt : JSValue) : JSValue :=
  if truthy opt then opt else if truthy envVal then envVal else dflt

/- Theorems. -/

/-- Deleting a key from an object leaves an object without that key. -/
theorem hasKey_objDelete {α : Type} (l : List (String × α)) (k : String) :
    hasKey (objDelete l k) k = false := by
  simp only [hasKey, objDelete, List.any_eq_false, List.mem_filter]
  intro p hp h
  exact absurd (by simpa using h) (by simpa using hp.2)

/-- Claim C1: the claim states that a parse failure on a body that passed
the HTTP-success check is caught and rethrown as APIError(caughtError,
status). In the source the try/catch wraps only the synchronous construction
of the promise chains while the parsing runs inside promise continuations,
so the rejection carries the raw parse error and never an APIError: at a 2xx
response declaring application/json with the malformed body not-json, the
call rejects with the raw SyntaxError, not with the APIError the claim
requires. -/
theorem c1_json_parse_failure_escapes_catch :
    Part000.handleResponse failingJsonParse
        { status := 200, contentType := some "application/json",
          body := "not-json" }
      = .rejected (.raw "SyntaxError: not-json")
    ∧ Part000.handleResponse failingJsonParse
        { status := 200, contentType := some "application/json",
          body := "not-json" }
      ≠ .rejected (.errObj (APIError.make (.str "SyntaxError: not-json")
          (.num 200))) :=
  ⟨rfl, by decide⟩

/-- Claim C2 (counterexample): a response with status 500 and no
Content-Type header rejects with the raw TypeError thrown while reading the
header, not with APIError(raw body, status) as the claim requires for all
content-types including an absent one; moreover even an APIError built from
that body and status would not carry the status (its status field is never
assigned). -/
theorem c2_missing_header_counterexample :
    Part000.handleResponse failingJsonParse
        { status := 500, contentType := none, body := "gateway error" }
      = .rejected
          (.raw "TypeError: Cannot read properties of null (reading includes)")
    ∧ Part000.handleResponse failingJsonParse
        { status := 500, contentType := none, body := "gateway error" }
      ≠ .rejected (.errObj (APIError.make (.str "gateway error") (.num 500)))
    ∧ (APIError.make (.str "gateway error") (.num 500)).status = none :=
  ⟨rfl, by decide, rfl⟩

/-- Claim C2 (amended): for every response that declares a Content-Type
header and whose status is outside 200 to 299, the call rejects with the
APIError constructed from the raw body text and the HTTP status, regardless
of the declared content-type value and before any content-type dispatch
(the constructor retains only the message; the status argument is
discarded). -/
theorem c2_non2xx_with_header_rejects_apierror
    (jsonParse : String → Except String JObj) (res : Response) (ct : String)
    (hct : res.contentType = some ct) (hok : resOk res.status = false) :
    Part000.handleResponse jsonParse res =
      .rejected (.errObj (APIError.make (.str res.body)
        (.num (res.status : Int)))) := by
  unfold Part000.handleResponse
  rw [hct]
  simp [hok]

/-- Claim C2 (witness): the amended theorem applied at a concrete 404
response declaring text/plain. -/
theorem c2_non2xx_witness :
    Part000.handleResponse failingJsonParse
        { status := 404, contentType := some "text/plain", body := "not found" }
      = .rejected (.errObj (APIError.make (.str "not found") (.num 404))) :=
  c2_non2xx_with_header_rejects_apierror failingJsonParse
    { status := 404, contentType := some "text/plain", body := "not found" }
    "text/plain" rfl rfl

/-- Claim C3: the claim states that APIError exposes the status and
PaymentError the code they were constructed with. Both constructors run only
super(message) and set the name: the second argument is discarded, so a
constructed error exposes the message but not the status or code; a
dispatcher rejection for a non-2xx response likewise carries an object
holding only name and message. -/
theorem c3_error_constructors_drop_status :
    (APIError.make (.str "failed") (.num 500)).message = "failed"
    ∧ (APIError.make (.str "failed") (.num 500)).status = none
    ∧ (PaymentError.make (.str "failed") (.str "1")).message = "failed"
    ∧ (PaymentError.make (.str "failed") (.str "1")).code = none
    ∧ Part000.handleResponse failingJsonParse
        { status := 503, contentType := some "text/plain", body := "oops" }
      = .rejected (.errObj { name := "APIError", message := "oops" }) :=
  ⟨rfl, rfl, rfl, rfl, rfl⟩

/-- Claim C4 (counterexample): the claim states that boolean values become
the strings true/false and numbers their decimal form. The encoding
`(data[key] || "").toString()` sends every falsy value to the empty string:
a field holding false is transmitted as the empty string, not as the string
false, and a field holding 0 is transmitted as the empty string, not 0. -/
theorem c4_false_becomes_empty_counterexample :
    Part000.buildFormData [("prepareOnly", .bool true), ("test", .bool false)]
      = [("type", "json"), ("prepareOnly", "true"), ("test", "")]
    ∧ Part000.stringifyField (.bool false) ≠ "false"
    ∧ Part000.stringifyField (.num 0) ≠ "0" :=
  ⟨rfl, by decide, by decide⟩

/-- Claim C4 (amended): every transmitted form field is string-valued, a
field type=json is always included, and each caller value is encoded by
`(v || "").toString()`: a truthy value becomes its string conversion (true
becomes the string true, a nonzero number its decimal form) while every
falsy value — false, 0, null, undefined and the empty string — becomes the
empty string. -/
theorem c4_form_encoding_amended :
    (∀ data : List (String × JSValue),
      ("type", "json") ∈ Part000.buildFormData data)
    ∧ (∀ v : JSValue,
        Part000.stringifyField v = if truthy v then v.toString else "")
    ∧ (∀ data : List (String × JSValue),
        (Part000.buildFormData data).map Prod.snd
          = "json" :: data.map (fun p => Part000.stringifyField p.2)) := by
  refine ⟨fun data => List.mem_cons_self _ _, fun v => ?_, fun data => ?_⟩
  · by_cases h : truthy v
    · simp [Part000.stringifyField, jsOr, h]
    · simp [Part000.stringifyField, jsOr, h, JSValue.toString]
  · simp [Part000.buildFormData]

/-- Claim C5 (counterexample): the claim states the gateUrl base defaults to
https://payments.comgate.cz and that every field prefers the truthy explicit
option. The index.js variant has no base default — with apiVersion 1.0 and
no gateUrl source it resolves gateUrl to undefined/v1.0 — and it ignores the
explicit currency option, reading currency off the apiVersion option
instead, so an explicit currency EUR still resolves to CZK. -/
theorem c5_indexjs_counterexample :
    (IndexJs.ctor { apiVersion := .str "1.0" } {}).map Configuration.gateUrl
      = .ok "undefined/v1.0"
    ∧ (IndexJs.ctor { apiVersion := .str "1.0" } {}).map Configuration.gateUrl
      ≠ .ok "https://payments.comgate.cz/v1.0"
    ∧ (IndexJs.ctor { apiVersion := .str "1.0", currency := .str "EUR" }
        {}).map Configuration.currency = .ok (.str "CZK") :=
  ⟨rfl, by decide, rfl⟩

/-- Claim C5 (amended): in the part_000 variant each field resolves by the
stated precedence — truthy explicit option, else truthy environment value,
else the built-in default where one exists (1.0, CZK, cs, CZ and the base
https://payments.comgate.cz) — merchantId stays undefined when neither the
option nor MERCHANT_ID is given, and gateUrl is the resolved base joined
with /v and the resolved apiVersion; the index.js variant does not satisfy
this (see the counterexample). -/
theorem c5_part000_resolution_amended (config : JSOptions) (env : Env) :
    (Part000.ctor config env).apiVersion
      = specPrecedence config.apiVersion env.API_VERSION (.str "1.0")
    ∧ (Part000.ctor config env).currency
      = specPrecedence config.currency .undefined (.str "CZK")
    ∧ (Part000.ctor config env).language
      = specPrecedence config.language .undefined (.str "cs")
    ∧ (Part000.ctor config env).country
      = specPrecedence config.country .undefined (.str "CZ")
    ∧ (Part000.ctor config env).merchantId
      = jsOr config.merchantId env.MERCHANT_ID
    ∧ (config.merchantId = .undefined → env.MERCHANT_ID = .undefined →
        (Part000.ctor config env).merchantId = .undefined)
    ∧ (Part000.ctor config env).gateUrl
      = (specPrecedence config.gateUrl env.GATEWAY_URL
          (.str "https://payments.comgate.cz")).toString
        ++ "/v" ++ (Part000.ctor config env).apiVersion.toString := by
  refine ⟨rfl, rfl, rfl, rfl, rfl, ?_, rfl⟩
  intro h1 h2
  simp [Part000.ctor, jsOr, h1, h2, truthy]

/-- Claim C5 (witness): the amended theorem applied at empty options and
environment for merchantId, and at an explicit apiVersion 2.0 for the
gateUrl derivation. -/
theorem c5_part000_resolution_witness :
    (Part000.ctor {} {}).merchantId = .undefined
    ∧ (Part000.ctor { apiVersion := .str "2.0" } {}).gateUrl
      = "https://payments.comgate.cz/v2.0" := by
  refine ⟨(c5_part000_resolution_amended {} {}).2.2.2.2.2.1 rfl rfl, ?_⟩
  have h := (c5_part000_resolution_amended
    { apiVersion := .str "2.0" } {}).2.2.2.2.2.2
  rw [h]
  rfl

/-- Claim C6 (counterexample): a 2xx response whose content-type contains
text/html but also application/json, with body code=0&message=ok&foo=bar, is
dispatched to the JSON branch (checked first), whose parse fails and rejects
with the raw error — the call does not resolve with the stripped mapping as
the claim requires for every content-type containing text/html. -/
theorem c6_json_content_type_counterexample :
    jsIncludes "application/json, text/html" "text/html" = true
    ∧ objGetStr (toObject (urlSearchParams "code=0&message=ok&foo=bar")) "code"
      = .str "0"
    ∧ Part000.handleResponse failingJsonParse
        { status := 200, contentType := some "application/json, text/html",
          body := "code=0&message=ok&foo=bar" }
      = .rejected (.raw "SyntaxError: code=0&message=ok&foo=bar")
    ∧ Part000.handleResponse failingJsonParse
        { status := 200, contentType := some "application/json, text/html",
          body := "code=0&message=ok&foo=bar" }
      ≠ .resolvedFields [("foo", "bar")] :=
  ⟨by decide, rfl, rfl, by decide⟩

/-- Claim C6 (amended): for every 2xx response whose content-type contains
form-urlencoded or text/html and does not contain application/json, and
whose parsed body has a code field equal to the string 0, the call resolves
with the parsed mapping with code and message removed and everything else
unchanged. -/
theorem c6_urlencoded_success_amended
    (jsonParse : String → Except String JObj) (res : Response) (ct : String)
    (hct : res.contentType = some ct) (hok : resOk res.status = true)
    (hjson : jsIncludes ct "application/json" = false)
    (hform : (jsIncludes ct "form-urlencoded"
        || jsIncludes ct "text/html") = true)
    (hcode : objGetStr (toObject (urlSearchParams res.body)) "code"
        = .str "0") :
    Part000.handleResponse jsonParse res =
      .resolvedFields (objDelete
        (objDelete (toObject (urlSearchParams res.body)) "code") "message") := by
  unfold Part000.handleResponse
  rw [hct]
  simp [hok, hjson, hform, hcode]

/-- Claim C6 (witness): the amended theorem applied at a 200 urlencoded
response with body code=0&message=ok&foo=bar, which resolves with the single
entry foo = bar. -/
theorem c6_urlencoded_success_witness :
    Part000.handleResponse failingJsonParse
        { status := 200, contentType := some "application/x-www-form-urlencoded",
          body := "code=0&message=ok&foo=bar" }
      = .resolvedFields [("foo", "bar")] := by
  have h := c6_urlencoded_success_amended failingJsonParse
    { status := 200, contentType := some "application/x-www-form-urlencoded",
      body := "code=0&message=ok&foo=bar" }
    "application/x-www-form-urlencoded" rfl rfl (by decide) (by decide)
    (by decide)
  rw [h]
  decide

/-- Claim C7 (counterexample): a 2xx response whose content-type contains
text/html but also application/json, with body code=1&message=failed, is
dispatched to the JSON branch (checked first), whose parse fails and rejects
with the raw error — not with the PaymentError the claim requires for every
content-type containing text/html. -/
theorem c7_json_content_type_counterexample :
    jsIncludes "application/json, text/html" "text/html" = true
    ∧ Part000.handleResponse failingJsonParse
        { status := 200, contentType := some "application/json, text/html",
          body := "code=1&message=failed" }
      = .rejected (.raw "SyntaxError: code=1&message=failed")
    ∧ Part000.handleResponse failingJsonParse
        { status := 200, contentType := some "application/json, text/html",
          body := "code=1&message=failed" }
      ≠ .rejected (.errObj (PaymentError.make (.str "failed") (.str "1"))) :=
  ⟨by decide, rfl, by decide⟩

/-- Claim C7 (amended): for every 2xx response whose content-type contains
form-urlencoded or text/html and does not contain application/json, and
whose parsed body has a code field different from the string 0 (including an
absent code, which reads as undefined), the call rejects with the
PaymentError constructed from the message field and the code field of the
parsed mapping (the constructor retains only the message; see C3). -/
theorem c7_urlencoded_error_amended
    (jsonParse : String → Except String JObj) (res : Response) (ct : String)
    (hct : res.contentType = some ct) (hok : resOk res.status = true)
    (hjson : jsIncludes ct "application/json" = false)
    (hform : (jsIncludes ct "form-urlencoded"
        || jsIncludes ct "text/html") = true)
    (hcode : objGetStr (toObject (urlSearchParams res.body)) "code"
        ≠ .str "0") :
    Part000.handleResponse jsonParse res =
      .rejected (.errObj (PaymentError.make
        (objGetStr (toObject (urlSearchParams res.body)) "message")
        (objGetStr (toObject (urlSearchParams res.body)) "code"))) := by
  unfold Part000.handleResponse
  rw [hct]
  simp [hok, hjson, hform, hcode]

/-- Claim C7 (witness): the amended theorem applied at a 200 text/html
response with body code=1&message=failed, which rejects with the
PaymentError built from failed and 1. -/
theorem c7_urlencoded_error_witness :
    Part000.handleResponse failingJsonParse
        { status := 200, contentType := some "text/html",
          body := "code=1&message=failed" }
      = .rejected (.errObj (PaymentError.make (.str "failed") (.str "1"))) := by
  have h := c7_urlencoded_error_amended failingJsonParse
    { status := 200, contentType := some "text/html",
      body := "code=1&message=failed" }
    "text/html" rfl rfl (by decide) (by decide) (by decide)
  rw [h]
  decide

/-- Claim C8: the claim states construction is total for every options
mapping, including the empty one. In the index.js variant the constructor
evaluates config.apiVersion.currency, which throws a TypeError when the
apiVersion option is absent: construction with empty options and environment
fails instead of succeeding. -/
theorem c8_indexjs_construction_throws :
    IndexJs.ctor {} {}
      = .error "TypeError: Cannot read properties of undefined" := rfl

/-- Claim C9: refund deletes the amount property from the caller-supplied
params object (the source runs delete params.amount on the object the caller
passed in) before merging the remaining entries into the request fields, so
after the call the params object of the caller no longer contains amount. -/
theorem c9_refund_mutates_caller_params (cfg : Configuration)
    (transactionId : JSValue) (params : List (String × JSValue)) :
    (Part000.refund cfg transactionId params).2 = objDelete params "amount"
    ∧ hasKey (Part000.refund cfg transactionId params).2 "amount" = false
    ∧ (Part000.refund cfg transactionId params).1.data
      = objSpread
          [("merchant", cfg.merchantId), ("transId", transactionId),
           ("secret", cfg.secret), ("test", .str cfg.useTest.toString),
           ("curr", cfg.currency),
           ("amount", .str (jsOr (objGetV params "amount") (.str "")).toString)]
          (objDelete params "amount") :=
  ⟨rfl, hasKey_objDelete params "amount", rfl⟩

/-- Claim C10: status(transactionId) in src/index.js posts to the relative
path methods — the same path the methods() operation uses — while the same
operation in src/unnamed/part_000 posts to the relative path status, so the
two variants are not equivalent on this operation. -/
theorem c10_status_path_variants (cfg : Configuration)
    (transactionId : JSValue) :
    (IndexJs.status cfg transactionId).path = "methods"
    ∧ (IndexJs.status cfg transactionId).path = (IndexJs.methods cfg).path
    ∧ (Part000.status cfg transactionId).path = "status"
    ∧ (IndexJs.status cfg transactionId).path
      ≠ (Part000.status cfg transactionId).path :=
  ⟨rfl, rfl, rfl, by exact (by decide : ("methods" : String) ≠ "status")⟩
